import Mathlib

/-!
Shallow embedding of `src/wallet/rpc.rs` from the coinswap repository:
the RPC connection factory (`TryFrom<&RPCConfig> for Client`), the wallet
load/create resolution, the descriptor catalog construction, the fidelity
probe, the import step and the rescan retry loop of `Wallet::sync`.

The external Bitcoin Core RPC service, and the wallet methods that live in
other files of the repository (`get_unimported_wallet_desc`,
`is_descriptor_imported`, `import_descriptors`, `find_hd_next_index`,
`update_external_index`, `redeemscript_to_scriptpubkey`,
`str_to_bitcoin_network`), are modelled as an explicit environment of
responses.  Every RPC interaction performed by the embedded code is
recorded in an event trace so that theorems can speak about which calls
were performed and with which arguments.
-/

namespace CoinswapRpc

/-- Bitcoin network identifiers, mirroring `bitcoin::Network` as used by
`RPCConfig.network`. -/
inductive Network
  | bitcoin
  | testnet
  | signet
  | regtest
deriving DecidableEq, Repr

/-- Errors produced by the RPC client.  The code in `rpc.rs` never inspects
the error value; the `scanInProgress` constructor stands for the transient
"a rescan is already running" contention condition that the spec singles
out, `other` for every other RPC failure. -/
inductive RpcError
  | scanInProgress
  | other (msg : String)
deriving DecidableEq, Repr

/-- `WalletError` from `wallet/error.rs`: RPC errors convert into it via
the `?` operator; `Protocol` is raised directly in `rpc.rs` on network
mismatch. -/
inductive WalletError
  | protocol (msg : String)
  | rpc (e : RpcError)
deriving DecidableEq, Repr

/-- `serde_json::Value` restricted to the shapes that appear in the
untyped `createwallet` call of `rpc.rs` (strings, booleans, null). -/
inductive JVal
  | str (s : String)
  | bool (b : Bool)
  | null
deriving DecidableEq, Repr

/-- A Bitcoin script as a byte sequence (each entry a byte value). -/
abbrev Script := List Nat

/-- One side of a swap: the fields of a swap-coin that `Wallet::sync`
reads (`get_other_pubkey`, `get_my_pubkey`, `contract_redeemscript`).
Public keys are kept as their `Display` rendering. -/
structure SwapCoin where
  other_pubkey : String
  my_pubkey : String
  contract_redeemscript : Script
deriving DecidableEq, Repr

/-- Modelled from the spec: a fidelity-bond record, of which `sync` only
uses the `script_pub_key()` accessor (the bond type itself lives outside
`src/`). -/
structure FidelityBond where
  script_pub_key : Script
deriving DecidableEq, Repr

/-- One entry of the wallet store's `fidelity_bond` ordered map: the
tuple `(bond, script_pub_key, auxiliary)` whose first component is probed
via `b.script_pub_key()` and whose second component is imported. -/
structure FidelityEntry where
  bond : FidelityBond
  spk : Script
  aux : Bool
deriving DecidableEq, Repr

/-- The wallet store fields read and written by `Wallet::sync`.  Ordered
maps are modelled as lists in iteration order; map keys are irrelevant to
`sync` (it only iterates `.values()`). -/
structure Store where
  file_name : String
  incoming_swapcoins : List SwapCoin
  outgoing_swapcoins : List SwapCoin
  fidelity_bond : List FidelityEntry
  last_synced_height : Option Nat
  wallet_birthday : Option Nat
deriving DecidableEq, Repr

/-- `RPCConfig` from `rpc.rs`. -/
structure RPCConfig where
  url : String
  auth : String
  network : Network
  wallet_name : String
deriving DecidableEq, Repr

/-- Lowercase hex digit for a value below 16. -/
def hexDigit (n : Nat) : Char :=
  if n < 10 then Char.ofNat (48 + n) else Char.ofNat (87 + n)

/-- Two-character lowercase hex rendering of one byte, as produced by the
`{:x}` formatting of a script byte. -/
def byteHex (b : Nat) : String :=
  String.mk [hexDigit (b % 256 / 16), hexDigit (b % 16)]

/-- Lowercase hex rendering of a whole script, as produced by `{:x}` on a
`ScriptBuf`. -/
def scriptHex (s : Script) : String :=
  String.join (s.map byteHex)

/-- Modelled from the spec: `utill::str_to_bitcoin_network` maps the chain
name reported by the node to a network identifier.  Unknown names are
mapped to `regtest`; the claims only depend on the configured network
being compared against the image of this same function. -/
def str_to_bitcoin_network (s : String) : Network :=
  if s = "main" then .bitcoin
  else if s = "test" then .testnet
  else if s = "signet" then .signet
  else .regtest

/-- The environment of responses supplied by the external Bitcoin Core
node and by the wallet methods defined outside `rpc.rs`.  Responses to the
block-count and rescan calls are indexed by the retry-loop attempt number,
since those calls are re-issued once per loop iteration. -/
structure RpcEnv where
  new_client : Except RpcError Unit
  get_blockchain_info : Except RpcError String
  list_wallets : Except RpcError (List String)
  listwalletdir : Except RpcError (List String)
  version : Except RpcError Nat
  load_wallet : String → Except RpcError Unit
  create_wallet_legacy : String → Except RpcError Unit
  create_wallet_call : List JVal → Except RpcError JVal
  get_unimported_wallet_desc : Except WalletError (List String)
  get_descriptor_info : String → Except RpcError String
  is_descriptor_imported : String → Bool
  derive_addresses : String → Except RpcError (List String)
  get_address_info : String → Except RpcError (Option Bool)
  import_descriptors : List String → Except WalletError Unit
  get_block_count : Nat → Except RpcError Nat
  rescan_blockchain : Nat → Nat → Nat → Except RpcError Unit
  find_hd_next_index : Except WalletError Nat
  update_external_index : Nat → Except WalletError Unit
  redeemscript_to_scriptpubkey : Script → Script

/-- Trace events: one per RPC interaction performed by the embedded code,
carrying the arguments the code passed. -/
inductive Event
  | new_client
  | get_blockchain_info
  | list_wallets
  | listwalletdir
  | version
  | load_wallet (name : String)
  | create_wallet_legacy (name : String)
  | rpc_call (method : String) (args : List JVal)
  | get_unimported_wallet_desc
  | get_descriptor_info (d : String)
  | derive_addresses (d : String)
  | get_address_info (a : String)
  | import_descriptors (ds : List String)
  | get_block_count
  | rescan_blockchain (start stop : Nat)
  | sleep_secs (n : Nat)
  | find_hd_next_index
  | update_external_index (i : Nat)
deriving DecidableEq, Repr

/-- Outcome of running a piece of the embedded code: normal return,
propagated `WalletError`, Rust panic (`unwrap` on `Err`, out-of-bounds
index), or still inside the unbounded retry loop after the supplied fuel
was exhausted. -/
inductive SyncOutcome (α : Type)
  | ok (a : α)
  | err (e : WalletError)
  | panicked (msg : String)
  | spinning
deriving DecidableEq, Repr

/-- The message of a Rust `unwrap` panic on an `Err` value. -/
def unwrap_msg : String := "called unwrap on an Err value"

/-- The message of a Rust out-of-bounds index panic. -/
def oob_msg : String := "index out of bounds"

/-- `impl TryFrom<&RPCConfig> for Client` from `rpc.rs`: build the client,
query chain info, and fail with a `Protocol` error when the configured
network does not match the node's reported chain. -/
def client_try_from (env : RpcEnv) (config : RPCConfig) :
    SyncOutcome Unit × List Event :=
  match env.new_client with
  | .error e => (.err (.rpc e), [.new_client])
  | .ok _ =>
    match env.get_blockchain_info with
    | .error e => (.err (.rpc e), [.new_client, .get_blockchain_info])
    | .ok chain =>
      if config.network ≠ str_to_bitcoin_network chain then
        (.err (.protocol "RPC Network not mathcing with RPCConfig"),
          [.new_client, .get_blockchain_info])
      else
        (.ok (), [.new_client, .get_blockchain_info])

/-- The wallet load/create section at the top of `Wallet::sync`
(`rpc.rs` lines 86-111): already loaded → nothing; in the wallet dir →
load; else create, with the legacy call below version 210000 and the
untyped positional `createwallet` call otherwise. -/
def ensure_wallet (env : RpcEnv) (wallet_name : String) :
    SyncOutcome Unit × List Event :=
  match env.list_wallets with
  | .error e => (.err (.rpc e), [.list_wallets])
  | .ok loaded =>
    if loaded.contains wallet_name then
      (.ok (), [.list_wallets])
    else
      match env.listwalletdir with
      | .error e => (.err (.rpc e), [.list_wallets, .listwalletdir])
      | .ok dir =>
        if dir.contains wallet_name then
          match env.load_wallet wallet_name with
          | .error e =>
            (.err (.rpc e),
              [.list_wallets, .listwalletdir, .load_wallet wallet_name])
          | .ok _ =>
            (.ok (),
              [.list_wallets, .listwalletdir, .load_wallet wallet_name])
        else
          match env.version with
          | .error e =>
            (.err (.rpc e), [.list_wallets, .listwalletdir, .version])
          | .ok v =>
            if v < 210000 then
              match env.create_wallet_legacy wallet_name with
              | .error e =>
                (.err (.rpc e),
                  [.list_wallets, .listwalletdir, .version,
                    .create_wallet_legacy wallet_name])
              | .ok _ =>
                (.ok (),
                  [.list_wallets, .listwalletdir, .version,
                    .create_wallet_legacy wallet_name])
            else
              match env.create_wallet_call
                  [JVal.str wallet_name, JVal.bool true, JVal.bool false,
                    JVal.null, JVal.bool false, JVal.bool true] with
              | .error e =>
                (.err (.rpc e),
                  [.list_wallets, .listwalletdir, .version,
                    .rpc_call "createwallet"
                      [JVal.str wallet_name, JVal.bool true, JVal.bool false,
                        JVal.null, JVal.bool false, JVal.bool true]])
              | .ok _ =>
                (.ok (),
                  [.list_wallets, .listwalletdir, .version,
                    .rpc_call "createwallet"
                      [JVal.str wallet_name, JVal.bool true, JVal.bool false,
                        JVal.null, JVal.bool false, JVal.bool true]])

/-- The multisig descriptor text built for a swap-coin in `rpc.rs`
(lines 121 and 132): counterparty key first, own key second. -/
def multisig_descriptor (sc : SwapCoin) : String :=
  "wsh(sortedmulti(2," ++ sc.other_pubkey ++ "," ++ sc.my_pubkey ++ "))"

/-- The raw descriptor text built from a script-pub-key in `rpc.rs`
(lines 143, 154, 166, 180, 198). -/
def raw_descriptor (spk : Script) : String :=
  "raw(" ++ scriptHex spk ++ ")"

/-- The contract descriptor of a swap-coin: the raw descriptor of the
script-pub-key corresponding to its contract redeem-script. -/
def contract_descriptor (env : RpcEnv) (sc : SwapCoin) : String :=
  raw_descriptor (env.redeemscript_to_scriptpubkey sc.contract_redeemscript)

/-- One swap-coin category of the catalog: resolve each descriptor text
through `get_descriptor_info` (the code calls `.unwrap()` on the result,
so a failing call is a panic) and keep the resolved descriptors that
`is_descriptor_imported` reports as not yet imported. -/
def resolve_filter (env : RpcEnv) : List String → SyncOutcome (List String) × List Event
  | [] => (.ok [], [])
  | d :: rest =>
    match env.get_descriptor_info d with
    | .error _ => (.panicked unwrap_msg, [.get_descriptor_info d])
    | .ok desc =>
      match resolve_filter env rest with
      | (.ok tail, evs) =>
        (.ok (if env.is_descriptor_imported desc then tail else desc :: tail),
          .get_descriptor_info d :: evs)
      | (out, evs) => (out, .get_descriptor_info d :: evs)

/-- The fidelity-bond category of the catalog (`rpc.rs` lines 196-201):
resolve each descriptor text through `get_descriptor_info` with
`.unwrap()`, keeping every resolved descriptor without any filtering. -/
def resolve_all (env : RpcEnv) : List String → SyncOutcome (List String) × List Event
  | [] => (.ok [], [])
  | d :: rest =>
    match env.get_descriptor_info d with
    | .error _ => (.panicked unwrap_msg, [.get_descriptor_info d])
    | .ok desc =>
      match resolve_all env rest with
      | (.ok tail, evs) => (.ok (desc :: tail), .get_descriptor_info d :: evs)
      | (out, evs) => (out, .get_descriptor_info d :: evs)

/-- The watch-only probe of one fidelity script-pub-key (`rpc.rs` lines
165-177 and 179-191): resolve its raw descriptor, derive its first
address, query the address info, read `is_watchonly.unwrap_or(false)`.
Each intermediate `.unwrap()` is a panic on failure, as is indexing an
empty derived-address list. -/
def probe_spk (env : RpcEnv) (spk : Script) : SyncOutcome Bool × List Event :=
  match env.get_descriptor_info (raw_descriptor spk) with
  | .error _ =>
    (.panicked unwrap_msg, [.get_descriptor_info (raw_descriptor spk)])
  | .ok desc =>
    match env.derive_addresses desc with
    | .error _ =>
      (.panicked unwrap_msg,
        [.get_descriptor_info (raw_descriptor spk), .derive_addresses desc])
    | .ok [] =>
      (.panicked oob_msg,
        [.get_descriptor_info (raw_descriptor spk), .derive_addresses desc])
    | .ok (addr :: _) =>
      match env.get_address_info addr with
      | .error _ =>
        (.panicked unwrap_msg,
          [.get_descriptor_info (raw_descriptor spk), .derive_addresses desc,
            .get_address_info addr])
      | .ok wo =>
        (.ok (wo.getD false),
          [.get_descriptor_info (raw_descriptor spk), .derive_addresses desc,
            .get_address_info addr])

/-- Probe an optional script-pub-key: a missing entry counts as imported
(the `else { true }` branches of `rpc.rs` lines 175-177 and 189-191). -/
def probe_opt (env : RpcEnv) : Option Script → SyncOutcome Bool × List Event
  | none => (.ok true, [])
  | some spk => probe_spk env spk

/-- `is_fidelity_addrs_imported` (`rpc.rs` lines 161-194): probe the first
script-pub-key of the bond collection and the last of the remaining ones
(`spks.next()` then `spks.last()`), and conjoin the two results. -/
def fidelity_probe (env : RpcEnv) (st : Store) : SyncOutcome Bool × List Event :=
  match probe_opt env
      ((st.fidelity_bond.map (fun fb => fb.bond.script_pub_key)).head?) with
  | (.ok b1, evs1) =>
    match probe_opt env
        ((st.fidelity_bond.map (fun fb => fb.bond.script_pub_key)).tail.getLast?) with
    | (.ok b2, evs2) => (.ok (b1 && b2), evs1 ++ evs2)
    | (out, evs2) => (out, evs1 ++ evs2)
  | (out, evs1) => (out, evs1)

/-- Sequencing of two effectful steps: run `x`; if it returned normally,
run `f` on its value and concatenate the event traces; otherwise stop
with `x`'s abnormal outcome and trace (a propagated error or a panic
aborts the rest of the phase). -/
def withEvents {α β : Type} (x : SyncOutcome α × List Event)
    (f : α → SyncOutcome β × List Event) : SyncOutcome β × List Event :=
  match x with
  | (.ok a, evs) => ((f a).1, evs ++ (f a).2)
  | (.err e, evs) => (.err e, evs)
  | (.panicked m, evs) => (.panicked m, evs)
  | (.spinning, evs) => (.spinning, evs)

/-- An outcome that is either a normal return or a panic (the only two
outcomes the catalog phase can produce besides the initial
`get_unimported_wallet_desc` error). -/
def okOrPanic {α : Type} (o : SyncOutcome α) : Prop :=
  (∃ a, o = .ok a) ∨ (∃ m, o = .panicked m)

/-- The catalog phase of `Wallet::sync` (`rpc.rs` lines 113-201): the
unimported wallet descriptors, then the incoming and outgoing multisig
descriptors, then the incoming and outgoing contract descriptors (each
filtered against the import ledger), then the fidelity probe, then every
fidelity-bond descriptor unconditionally.  Returns the assembled
`descriptors_to_import` batch together with the probe result. -/
def build_catalog (env : RpcEnv) (st : Store) :
    SyncOutcome (List String × Bool) × List Event :=
  match env.get_unimported_wallet_desc with
  | .error e => (.err e, [.get_unimported_wallet_desc])
  | .ok wallet_descs =>
    let r :=
      withEvents (resolve_filter env (st.incoming_swapcoins.map multisig_descriptor))
        (fun in_multi =>
      withEvents (resolve_filter env (st.outgoing_swapcoins.map multisig_descriptor))
        (fun out_multi =>
      withEvents (resolve_filter env (st.incoming_swapcoins.map (contract_descriptor env)))
        (fun in_con =>
      withEvents (resolve_filter env (st.outgoing_swapcoins.map (contract_descriptor env)))
        (fun out_con =>
      withEvents (fidelity_probe env st)
        (fun probe =>
      withEvents (resolve_all env (st.fidelity_bond.map (fun fb => raw_descriptor fb.spk)))
        (fun fid =>
          (.ok (wallet_descs ++ in_multi ++ out_multi ++ in_con ++ out_con ++ fid, probe),
            [])))))))
    (r.1, .get_unimported_wallet_desc :: r.2)

/-- The rescan retry loop of `Wallet::sync` (`rpc.rs` lines 216-239):
each attempt recomputes the start height as
`max(last_synced_height.unwrap_or(0), wallet_birthday.unwrap_or(0))`,
queries the block count fresh, and calls `rescan_blockchain`.  On success
it records the freshly queried block count as the new
`last_synced_height` and exits; on any rescan error it sleeps three
seconds and retries; a block-count failure propagates via `?`.  `fuel`
bounds the number of attempts the model unfolds; exhausting it yields
`spinning` (the Rust loop is unbounded). -/
def rescan_loop (env : RpcEnv) (st : Store) :
    Nat → Nat → SyncOutcome Unit × Store × List Event
  | 0, _ => (.spinning, st, [])
  | fuel + 1, attempt =>
    match env.get_block_count attempt with
    | .error e => (.err (.rpc e), st, [.get_block_count])
    | .ok node_synced =>
      match env.rescan_blockchain attempt
          (max (st.last_synced_height.getD 0) (st.wallet_birthday.getD 0))
          node_synced with
      | .ok _ =>
        (.ok (), { st with last_synced_height := some node_synced },
          [.get_block_count,
            .rescan_blockchain
              (max (st.last_synced_height.getD 0) (st.wallet_birthday.getD 0))
              node_synced])
      | .error _ =>
        match rescan_loop env st fuel (attempt + 1) with
        | (out, st2, evs) =>
          (out, st2,
            .get_block_count ::
              .rescan_blockchain
                (max (st.last_synced_height.getD 0) (st.wallet_birthday.getD 0))
                node_synced :: .sleep_secs 3 :: evs)

/-- The result of one `sync` run: the outcome, the final wallet store,
and the trace of RPC interactions performed. -/
structure SyncRun where
  outcome : SyncOutcome Unit
  store : Store
  events : List Event
deriving DecidableEq, Repr

/-- `Wallet::sync` (`rpc.rs` lines 85-244): ensure the wallet is
loaded/created, build the descriptor batch and the fidelity probe, return
early when the batch is empty and the probe reports imported; otherwise
submit the batch, run the rescan retry loop, and finally advance the HD
index watermark. -/
def sync (env : RpcEnv) (st : Store) (fuel : Nat) : SyncRun :=
  match ensure_wallet env st.file_name with
  | (.ok _, evs0) =>
    match build_catalog env st with
    | (.ok (descs, probe), evs1) =>
      if descs.isEmpty && probe then
        { outcome := .ok (), store := st, events := evs0 ++ evs1 }
      else
        match env.import_descriptors descs with
        | .error e =>
          { outcome := .err e, store := st,
            events := evs0 ++ evs1 ++ [.import_descriptors descs] }
        | .ok _ =>
          match rescan_loop env st fuel 0 with
          | (.ok _, st2, evs2) =>
            match env.find_hd_next_index with
            | .error e =>
              { outcome := .err e, store := st2,
                events := evs0 ++ evs1 ++ [.import_descriptors descs] ++ evs2
                  ++ [.find_hd_next_index] }
            | .ok idx =>
              match env.update_external_index idx with
              | .error e =>
                { outcome := .err e, store := st2,
                  events := evs0 ++ evs1 ++ [.import_descriptors descs] ++ evs2
                    ++ [.find_hd_next_index, .update_external_index idx] }
              | .ok _ =>
                { outcome := .ok (), store := st2,
                  events := evs0 ++ evs1 ++ [.import_descriptors descs] ++ evs2
                    ++ [.find_hd_next_index, .update_external_index idx] }
          | (out, st2, evs2) =>
            { outcome := out, store := st2,
              events := evs0 ++ evs1 ++ [.import_descriptors descs] ++ evs2 }
    | (.err e, evs1) => { outcome := .err e, store := st, events := evs0 ++ evs1 }
    | (.panicked m, evs1) => { outcome := .panicked m, store := st, events := evs0 ++ evs1 }
    | (.spinning, evs1) => { outcome := .spinning, store := st, events := evs0 ++ evs1 }
  | (.err e, evs0) => { outcome := .err e, store := st, events := evs0 }
  | (.panicked m, evs0) => { outcome := .panicked m, store := st, events := evs0 }
  | (.spinning, evs0) => { outcome := .spinning, store := st, events := evs0 }

/-- Does an event load a wallet? -/
def Event.is_load_evt : Event → Bool
  | .load_wallet _ => true
  | _ => false

/-- Does an event create a wallet (legacy call or untyped call)? -/
def Event.is_create_evt : Event → Bool
  | .create_wallet_legacy _ => true
  | .rpc_call _ _ => true
  | _ => false

/-- Is an event the legacy wallet-creation call? -/
def Event.is_legacy_create_evt : Event → Bool
  | .create_wallet_legacy _ => true
  | _ => false

/-- Is an event an untyped RPC call? -/
def Event.is_call_evt : Event → Bool
  | .rpc_call _ _ => true
  | _ => false

/-- Is an event a descriptor-import submission? -/
def Event.is_import_evt : Event → Bool
  | .import_descriptors _ => true
  | _ => false

/-- Is an event a blockchain rescan request? -/
def Event.is_rescan_evt : Event → Bool
  | .rescan_blockchain _ _ => true
  | _ => false

/-- Events emitted by the wallet load/create phase. -/
def Event.is_ensure_evt : Event → Bool
  | .list_wallets => true
  | .listwalletdir => true
  | .version => true
  | .load_wallet _ => true
  | .create_wallet_legacy _ => true
  | .rpc_call _ _ => true
  | _ => false

/-- Events emitted by the catalog-building phase. -/
def Event.is_catalog_evt : Event → Bool
  | .get_unimported_wallet_desc => true
  | .get_descriptor_info _ => true
  | .derive_addresses _ => true
  | .get_address_info _ => true
  | _ => false

/-- Events emitted by the rescan retry loop. -/
def Event.is_loop_evt : Event → Bool
  | .get_block_count => true
  | .rescan_blockchain _ _ => true
  | .sleep_secs _ => true
  | _ => false

/-- Every descriptor text handed to `get_descriptor_info` during the
catalog phase of `sync`: both swap-coin multisig families, both contract
families, the two probed fidelity raw descriptors, and the fidelity-bond
raw descriptors. -/
def catalog_queries (env : RpcEnv) (st : Store) : List String :=
  st.incoming_swapcoins.map multisig_descriptor
    ++ st.outgoing_swapcoins.map multisig_descriptor
    ++ st.incoming_swapcoins.map (contract_descriptor env)
    ++ st.outgoing_swapcoins.map (contract_descriptor env)
    ++ ((st.fidelity_bond.map (fun fb => fb.bond.script_pub_key)).head?.toList.map
          raw_descriptor)
    ++ ((st.fidelity_bond.map
          (fun fb => fb.bond.script_pub_key)).tail.getLast?.toList.map raw_descriptor)
    ++ st.fidelity_bond.map (fun fb => raw_descriptor fb.spk)

/-! Concrete environments and stores used to instantiate the theorems. -/

/-- A base environment in which every call succeeds: checksum resolution
appends a marker, nothing is imported yet, the chain tip is at height 5
and every rescan attempt succeeds. -/
def envOk : RpcEnv where
  new_client := .ok ()
  get_blockchain_info := .ok "regtest"
  list_wallets := .ok ["w"]
  listwalletdir := .ok []
  version := .ok 250000
  load_wallet := fun _ => .ok ()
  create_wallet_legacy := fun _ => .ok ()
  create_wallet_call := fun _ => .ok .null
  get_unimported_wallet_desc := .ok []
  get_descriptor_info := fun d => .ok (d ++ "#c")
  is_descriptor_imported := fun _ => false
  derive_addresses := fun d => .ok [d ++ "-addr"]
  get_address_info := fun _ => .ok (some false)
  import_descriptors := fun _ => .ok ()
  get_block_count := fun _ => .ok 5
  rescan_blockchain := fun _ _ _ => .ok ()
  find_hd_next_index := .ok 0
  update_external_index := fun _ => .ok ()
  redeemscript_to_scriptpubkey := fun s => s

/-- A wallet store with no swap-coins and no fidelity bonds. -/
def stEmpty : Store where
  file_name := "w"
  incoming_swapcoins := []
  outgoing_swapcoins := []
  fidelity_bond := []
  last_synced_height := none
  wallet_birthday := none

/-- A fidelity-bond entry whose script-pub-key is the single byte `0xaa`. -/
def bondEntry : FidelityEntry where
  bond := { script_pub_key := [170] }
  spk := [170]
  aux := false

/-- A wallet store holding exactly one fidelity bond. -/
def stBond : Store := { stEmpty with fidelity_bond := [bondEntry] }

/-- An incoming swap-coin with pubkeys rendered as `A` and `B`. -/
def scIn : SwapCoin where
  other_pubkey := "A"
  my_pubkey := "B"
  contract_redeemscript := [1]

/-- A wallet store holding exactly one incoming swap-coin. -/
def stSwap : Store := { stEmpty with incoming_swapcoins := [scIn] }

/-- Environment whose first rescan attempt fails with a non-contention
error and whose second attempt succeeds. -/
def envC1 : RpcEnv :=
  { envOk with
    rescan_blockchain := fun attempt _ _ =>
      if attempt = 0 then .error (.other "database error") else .ok () }

/-- Environment in which every probed address is reported watch-only. -/
def envProbeTrue : RpcEnv :=
  { envOk with get_address_info := fun _ => .ok (some true) }

/-- Environment representing the service state right after a first
successful `sync`: every descriptor is already imported, the probed
fidelity addresses are watch-only, there are no unimported wallet
descriptors, and the chain tip has not moved. -/
def envSecond : RpcEnv :=
  { envOk with
    get_address_info := fun _ => .ok (some true)
    is_descriptor_imported := fun _ => true }

/-- Environment identical to `envOk` except that the chain tip is now
reported at the smaller height 3. -/
def envTip3 : RpcEnv :=
  { envOk with get_block_count := fun _ => .ok 3 }

/-- Environment in which descriptor resolution always fails. -/
def envDescFail : RpcEnv :=
  { envOk with get_descriptor_info := fun _ => .error (.other "bad descriptor") }

/-- A configuration expecting mainnet, mismatching the `regtest` chain
reported by `envOk`. -/
def cfgMain : RPCConfig where
  url := "localhost:18443"
  auth := "user"
  network := .bitcoin
  wallet_name := "w"

/-! # Theorems -/

theorem mem_resolve_filter_events (env : RpcEnv) (ds : List String) :
    ∀ e ∈ (resolve_filter env ds).2, e.is_catalog_evt = true := by
  induction ds with
  | nil =>
    intro e he
    simp [resolve_filter] at he
  | cons d rest ih =>
    intro e he
    rcases hg : env.get_descriptor_info d with e0 | desc
    · simp only [resolve_filter, hg] at he
      simp only [List.mem_cons, List.not_mem_nil, or_false] at he
      subst he
      rfl
    · rcases hr : resolve_filter env rest with ⟨out, evs⟩
      have hevs : ∀ x ∈ evs, Event.is_catalog_evt x = true := by
        intro x hx
        exact ih x (by rw [hr]; exact hx)
      cases out <;>
      · simp only [resolve_filter, hg, hr] at he
        rcases List.mem_cons.mp he with rfl | hmem
        · rfl
        · exact hevs e hmem

theorem mem_resolve_all_events (env : RpcEnv) (ds : List String) :
    ∀ e ∈ (resolve_all env ds).2, e.is_catalog_evt = true := by
  induction ds with
  | nil =>
    intro e he
    simp [resolve_all] at he
  | cons d rest ih =>
    intro e he
    rcases hg : env.get_descriptor_info d with e0 | desc
    · simp only [resolve_all, hg] at he
      simp only [List.mem_cons, List.not_mem_nil, or_false] at he
      subst he
      rfl
    · rcases hr : resolve_all env rest with ⟨out, evs⟩
      have hevs : ∀ x ∈ evs, Event.is_catalog_evt x = true := by
        intro x hx
        exact ih x (by rw [hr]; exact hx)
      cases out <;>
      · simp only [resolve_all, hg, hr] at he
        rcases List.mem_cons.mp he with rfl | hmem
        · rfl
        · exact hevs e hmem

theorem mem_probe_spk_events (env : RpcEnv) (spk : Script) :
    ∀ e ∈ (probe_spk env spk).2, e.is_catalog_evt = true := by
  intro e he
  rcases hg : env.get_descriptor_info (raw_descriptor spk) with e0 | desc
  · simp only [probe_spk, hg] at he
    simp only [List.mem_cons, List.not_mem_nil, or_false] at he
    subst he
    rfl
  · rcases hd : env.derive_addresses desc with e1 | addrs
    · simp only [probe_spk, hg, hd] at he
      simp only [List.mem_cons, List.not_mem_nil, or_false] at he
      rcases he with rfl | rfl <;> rfl
    · cases addrs with
      | nil =>
        simp only [probe_spk, hg, hd] at he
        simp only [List.mem_cons, List.not_mem_nil, or_false] at he
        rcases he with rfl | rfl <;> rfl
      | cons a rest =>
        rcases ha : env.get_address_info a with e2 | wo <;>
        · simp only [probe_spk, hg, hd, ha] at he
          simp only [List.mem_cons, List.not_mem_nil, or_false] at he
          rcases he with rfl | rfl | rfl <;> rfl

theorem mem_probe_opt_events (env : RpcEnv) (o : Option Script) :
    ∀ e ∈ (probe_opt env o).2, e.is_catalog_evt = true := by
  cases o with
  | none => intro e he; simp [probe_opt] at he
  | some spk => exact mem_probe_spk_events env spk

theorem mem_fidelity_probe_events (env : RpcEnv) (st : Store) :
    ∀ e ∈ (fidelity_probe env st).2, e.is_catalog_evt = true := by
  intro e he
  rcases h1 : probe_opt env
      ((st.fidelity_bond.map (fun fb => fb.bond.script_pub_key)).head?) with ⟨o1, evs1⟩
  have hv1 : ∀ x ∈ evs1, Event.is_catalog_evt x = true := by
    intro x hx
    exact mem_probe_opt_events env _ x (by rw [h1]; exact hx)
  rcases h2 : probe_opt env
      ((st.fidelity_bond.map (fun fb => fb.bond.script_pub_key)).tail.getLast?)
    with ⟨o2, evs2⟩
  have hv2 : ∀ x ∈ evs2, Event.is_catalog_evt x = true := by
    intro x hx
    exact mem_probe_opt_events env _ x (by rw [h2]; exact hx)
  cases o1 <;>
    first
    | (cases o2 <;>
       · simp only [fidelity_probe, h1, h2] at he
         rcases List.mem_append.mp he with hmem | hmem
         · exact hv1 e hmem
         · exact hv2 e hmem)
    | (simp only [fidelity_probe, h1] at he
       exact hv1 e he)

theorem mem_withEvents {α β : Type} {x : SyncOutcome α × List Event}
    {f : α → SyncOutcome β × List Event} {e : Event}
    (he : e ∈ (withEvents x f).2) :
    e ∈ x.2 ∨ ∃ a, x.1 = .ok a ∧ e ∈ (f a).2 := by
  rcases x with ⟨o, evs⟩
  cases o <;> simp_all [withEvents]

theorem withEvents_fst_ok {α β : Type} {x : SyncOutcome α × List Event}
    {f : α → SyncOutcome β × List Event} {b : β}
    (h : (withEvents x f).1 = .ok b) :
    ∃ a, x.1 = .ok a ∧ (f a).1 = .ok b := by
  rcases x with ⟨o, evs⟩
  cases o <;> simp_all [withEvents]

theorem withEvents_okOrPanic {α β : Type} {x : SyncOutcome α × List Event}
    {f : α → SyncOutcome β × List Event}
    (hx : okOrPanic x.1) (hf : ∀ a, okOrPanic (f a).1) :
    okOrPanic (withEvents x f).1 := by
  rcases x with ⟨o, evs⟩
  rcases hx with ⟨a, ha⟩ | ⟨m, hm⟩
  · simp only at ha
    subst ha
    simpa [withEvents] using hf a
  · simp only at hm
    subst hm
    exact Or.inr ⟨m, rfl⟩

theorem mem_build_catalog_events (env : RpcEnv) (st : Store) :
    ∀ e ∈ (build_catalog env st).2, e.is_catalog_evt = true := by
  intro e he
  rcases hw : env.get_unimported_wallet_desc with e0 | wd <;>
    simp only [build_catalog, hw] at he
  · simp only [List.mem_cons, List.not_mem_nil, or_false] at he
    subst he
    rfl
  · rcases List.mem_cons.mp he with rfl | he1
    · rfl
    · rcases mem_withEvents he1 with h | ⟨a1, _, h⟩
      · exact mem_resolve_filter_events env _ e h
      rcases mem_withEvents h with h | ⟨a2, _, h⟩
      · exact mem_resolve_filter_events env _ e h
      rcases mem_withEvents h with h | ⟨a3, _, h⟩
      · exact mem_resolve_filter_events env _ e h
      rcases mem_withEvents h with h | ⟨a4, _, h⟩
      · exact mem_resolve_filter_events env _ e h
      rcases mem_withEvents h with h | ⟨a5, _, h⟩
      · exact mem_fidelity_probe_events env st e h
      rcases mem_withEvents h with h | ⟨a6, _, h⟩
      · exact mem_resolve_all_events env _ e h
      · simp at h

theorem mem_ensure_wallet_events (env : RpcEnv) (name : String) :
    ∀ e ∈ (ensure_wallet env name).2, e.is_ensure_evt = true := by
  intro e he
  unfold ensure_wallet at he
  repeat' split at he
  all_goals
    simp only [List.mem_cons, List.not_mem_nil, or_false] at he
  all_goals rcases he with rfl | rfl | rfl | rfl <;> rfl

theorem mem_rescan_loop_events (env : RpcEnv) (st : Store) :
    ∀ (f a : Nat), ∀ e ∈ (rescan_loop env st f a).2.2, e.is_loop_evt = true := by
  intro f
  induction f with
  | zero =>
    intro a e he
    simp [rescan_loop] at he
  | succ f ih =>
    intro a e he
    rcases hgb : env.get_block_count a with e0 | tip
    · simp only [rescan_loop, hgb] at he
      simp only [List.mem_cons, List.not_mem_nil, or_false] at he
      subst he
      rfl
    · rcases hres : env.rescan_blockchain a
          (max (st.last_synced_height.getD 0) (st.wallet_birthday.getD 0)) tip
        with e1 | u
      · rcases hL : rescan_loop env st f (a + 1) with ⟨out, st2, evs⟩
        simp only [rescan_loop, hgb, hres, hL] at he
        rcases List.mem_cons.mp he with rfl | he2
        · rfl
        rcases List.mem_cons.mp he2 with rfl | he3
        · rfl
        rcases List.mem_cons.mp he3 with rfl | he4
        · rfl
        · exact ih (a + 1) e (by rw [hL]; exact he4)
      · simp only [rescan_loop, hgb, hres] at he
        simp only [List.mem_cons, List.not_mem_nil, or_false] at he
        rcases he with rfl | rfl <;> rfl

/-- C7: for every swap-coin the multisig descriptor text submitted for
checksum resolution is exactly `wsh(sortedmulti(2,A,B))` with the
counterparty key `A` first and the own key `B` second; for every contract
redeem-script the raw descriptor text is exactly `raw(h)` where `h` is
the hex serialization of the corresponding script-pub-key; and for every
fidelity-bond script-pub-key the raw descriptor text is exactly `raw(h)`
of its hex serialization. -/
theorem descriptor_texts_exact :
    (∀ (a b : String) (r : Script),
      multisig_descriptor
          { other_pubkey := a, my_pubkey := b, contract_redeemscript := r } =
        "wsh(sortedmulti(2," ++ a ++ "," ++ b ++ "))") ∧
    (∀ (env : RpcEnv) (sc : SwapCoin),
      contract_descriptor env sc =
        "raw(" ++ scriptHex (env.redeemscript_to_scriptpubkey sc.contract_redeemscript)
          ++ ")") ∧
    (∀ spk : Script, raw_descriptor spk = "raw(" ++ scriptHex spk ++ ")") :=
  ⟨fun _ _ _ => rfl, fun _ _ => rfl, fun _ => rfl⟩

/-- C8: when the configured network differs from the network reported by
the node's chain-info query, building a client fails with the `Protocol`
error, and the only calls performed are the client construction and the
chain-info query — no wallet load, wallet create, import, or rescan call
is attempted. -/
theorem network_mismatch_guard (env : RpcEnv) (cfg : RPCConfig) (chain : String)
    (h1 : env.new_client = .ok ())
    (h2 : env.get_blockchain_info = .ok chain)
    (h3 : cfg.network ≠ str_to_bitcoin_network chain) :
    client_try_from env cfg =
      (.err (.protocol "RPC Network not mathcing with RPCConfig"),
        [Event.new_client, Event.get_blockchain_info]) ∧
    ∀ e ∈ (client_try_from env cfg).2,
      e.is_load_evt = false ∧ e.is_create_evt = false ∧
        e.is_import_evt = false ∧ e.is_rescan_evt = false := by
  have hmain : client_try_from env cfg =
      (.err (.protocol "RPC Network not mathcing with RPCConfig"),
        [Event.new_client, Event.get_blockchain_info]) := by
    simp only [client_try_from, h1, h2]
    simp [h3]
  refine ⟨hmain, ?_⟩
  intro e he
  rw [hmain] at he
  simp only [List.mem_cons, List.not_mem_nil, or_false] at he
  rcases he with rfl | rfl
  · exact ⟨rfl, rfl, rfl, rfl⟩
  · exact ⟨rfl, rfl, rfl, rfl⟩

/-- Witness for C8: with the all-ok environment reporting `regtest` and a
configuration expecting mainnet, client construction fails with the
`Protocol` error after exactly the two connection calls. -/
theorem network_mismatch_guard_witness :
    envOk.get_blockchain_info = .ok "regtest" ∧
    cfgMain.network ≠ str_to_bitcoin_network "regtest" ∧
    client_try_from envOk cfgMain =
      (.err (.protocol "RPC Network not mathcing with RPCConfig"),
        [Event.new_client, Event.get_blockchain_info]) :=
  ⟨rfl, by decide,
    (network_mismatch_guard envOk cfgMain "regtest" rfl rfl (by decide)).1⟩

/-- C4: on every attempt of the rescan loop the scan start height is
`max(last_synced_height.unwrap_or(0), wallet_birthday.unwrap_or(0))`, the
scan end height is the block count queried fresh on that same attempt,
and on a successful attempt the loop exits recording exactly that
attempt's end height as the new `last_synced_height`; on a failed rescan
the loop re-enters the next attempt with the store unchanged. -/
theorem rescan_bounds_and_recording (env : RpcEnv) (st : Store)
    (fuel attempt tip : Nat)
    (h : env.get_block_count attempt = .ok tip) :
    (env.rescan_blockchain attempt
        (max (st.last_synced_height.getD 0) (st.wallet_birthday.getD 0)) tip = .ok () →
      rescan_loop env st (fuel + 1) attempt =
        (.ok (), { st with last_synced_height := some tip },
          [.get_block_count,
            .rescan_blockchain
              (max (st.last_synced_height.getD 0) (st.wallet_birthday.getD 0)) tip])) ∧
    (∀ e, env.rescan_blockchain attempt
        (max (st.last_synced_height.getD 0) (st.wallet_birthday.getD 0)) tip = .error e →
      rescan_loop env st (fuel + 1) attempt =
        ((rescan_loop env st fuel (attempt + 1)).1,
          (rescan_loop env st fuel (attempt + 1)).2.1,
          .get_block_count ::
            .rescan_blockchain
              (max (st.last_synced_height.getD 0) (st.wallet_birthday.getD 0)) tip ::
              .sleep_secs 3 :: (rescan_loop env st fuel (attempt + 1)).2.2)) := by
  constructor
  · intro hres
    simp only [rescan_loop, h, hres]
  · intro e hres
    simp only [rescan_loop, h, hres]

/-- Witness for C4: in the all-ok environment the first attempt scans
from height 0 to the fresh tip 5 and records 5. -/
theorem rescan_bounds_and_recording_witness :
    envOk.get_block_count 0 = .ok 5 ∧
    envOk.rescan_blockchain 0 0 5 = .ok () ∧
    rescan_loop envOk stEmpty 1 0 =
      (.ok (), { stEmpty with last_synced_height := some 5 },
        [.get_block_count, .rescan_blockchain 0 5]) :=
  ⟨rfl, rfl, (rescan_bounds_and_recording envOk stEmpty 0 0 5 rfl).1 rfl⟩

/-- C1 (amended): inside the rescan loop, every error returned by the
rescan call — contention or any other error alike — is retried after a
3-second sleep; the only error the loop propagates to the caller of
`sync` is a failure of the fresh block-count query. -/
theorem rescan_retries_every_error (env : RpcEnv) (st : Store)
    (fuel attempt : Nat) :
    (∀ tip e, env.get_block_count attempt = .ok tip →
      env.rescan_blockchain attempt
          (max (st.last_synced_height.getD 0) (st.wallet_birthday.getD 0)) tip =
        .error e →
      rescan_loop env st (fuel + 1) attempt =
        ((rescan_loop env st fuel (attempt + 1)).1,
          (rescan_loop env st fuel (attempt + 1)).2.1,
          .get_block_count ::
            .rescan_blockchain
              (max (st.last_synced_height.getD 0) (st.wallet_birthday.getD 0)) tip ::
              .sleep_secs 3 :: (rescan_loop env st fuel (attempt + 1)).2.2)) ∧
    (∀ e, env.get_block_count attempt = .error e →
      rescan_loop env st (fuel + 1) attempt =
        (.err (.rpc e), st, [.get_block_count])) ∧
    (∀ f a e, (rescan_loop env st f a).1 = .err e →
      ∃ i e2, a ≤ i ∧ e = .rpc e2 ∧ env.get_block_count i = .error e2) := by
  refine ⟨?_, ?_, ?_⟩
  · intro tip e hgb hres
    simp only [rescan_loop, hgb, hres]
  · intro e hgb
    simp only [rescan_loop, hgb]
  · intro f
    induction f with
    | zero =>
      intro a e h
      simp [rescan_loop] at h
    | succ f ih =>
      intro a e h
      rcases hgb : env.get_block_count a with e0 | tip
      · simp only [rescan_loop, hgb] at h
        cases h
        exact ⟨a, e0, le_refl a, rfl, hgb⟩
      · rcases hres : env.rescan_blockchain a
            (max (st.last_synced_height.getD 0) (st.wallet_birthday.getD 0)) tip
          with e1 | u
        · simp only [rescan_loop, hgb, hres] at h
          rcases hL : rescan_loop env st f (a + 1) with ⟨out, st2, evs⟩
          rw [hL] at h
          simp at h
          obtain ⟨i, e2, hi, he, hgb2⟩ := ih (a + 1) e (by rw [hL]; exact h)
          exact ⟨i, e2, le_trans (Nat.le_succ a) hi, he, hgb2⟩
        · simp only [rescan_loop, hgb, hres] at h
          cases h

/-- Witness for C1: a non-contention rescan error on attempt 0 is
retried: the loop re-enters attempt 1 after a 3-second sleep. -/
theorem rescan_retries_every_error_witness :
    envC1.get_block_count 0 = .ok 5 ∧
    envC1.rescan_blockchain 0 0 5 = .error (.other "database error") ∧
    rescan_loop envC1 stBond 2 0 =
      ((rescan_loop envC1 stBond 1 1).1, (rescan_loop envC1 stBond 1 1).2.1,
        .get_block_count :: .rescan_blockchain 0 5 :: .sleep_secs 3 ::
          (rescan_loop envC1 stBond 1 1).2.2) :=
  ⟨rfl, rfl,
    (rescan_retries_every_error envC1 stBond 1 0).1 5 (.other "database error") rfl rfl⟩

/-- Counterexample for C1: in `envC1` the first rescan attempt fails with
a non-contention error, yet `sync` does not propagate it — it retries
(sleeping 3 seconds) and completes successfully on the next attempt. -/
theorem rescan_retry_counterexample :
    envC1.rescan_blockchain 0 0 5 = .error (.other "database error") ∧
    (sync envC1 stBond 3).outcome = .ok () ∧
    Event.sleep_secs 3 ∈ (sync envC1 stBond 3).events := by
  refine ⟨rfl, rfl, ?_⟩
  decide

theorem resolve_filter_okOrPanic (env : RpcEnv) (ds : List String) :
    okOrPanic (resolve_filter env ds).1 := by
  induction ds with
  | nil => exact Or.inl ⟨[], rfl⟩
  | cons d rest ih =>
    rcases hg : env.get_descriptor_info d with e0 | desc
    · exact Or.inr ⟨unwrap_msg, by simp [resolve_filter, hg]⟩
    · rcases hr : resolve_filter env rest with ⟨out, evs⟩
      rw [hr] at ih
      rcases ih with ⟨l, hl⟩ | ⟨m, hm⟩
      · simp only at hl
        subst hl
        refine Or.inl ⟨if env.is_descriptor_imported desc then l else desc :: l, ?_⟩
        simp [resolve_filter, hg, hr]
      · simp only at hm
        subst hm
        exact Or.inr ⟨m, by simp [resolve_filter, hg, hr]⟩

theorem resolve_all_okOrPanic (env : RpcEnv) (ds : List String) :
    okOrPanic (resolve_all env ds).1 := by
  induction ds with
  | nil => exact Or.inl ⟨[], rfl⟩
  | cons d rest ih =>
    rcases hg : env.get_descriptor_info d with e0 | desc
    · exact Or.inr ⟨unwrap_msg, by simp [resolve_all, hg]⟩
    · rcases hr : resolve_all env rest with ⟨out, evs⟩
      rw [hr] at ih
      rcases ih with ⟨l, hl⟩ | ⟨m, hm⟩
      · simp only at hl
        subst hl
        refine Or.inl ⟨desc :: l, ?_⟩
        simp [resolve_all, hg, hr]
      · simp only at hm
        subst hm
        exact Or.inr ⟨m, by simp [resolve_all, hg, hr]⟩

theorem probe_spk_okOrPanic (env : RpcEnv) (spk : Script) :
    okOrPanic (probe_spk env spk).1 := by
  rcases hg : env.get_descriptor_info (raw_descriptor spk) with e0 | desc
  · exact Or.inr ⟨unwrap_msg, by simp [probe_spk, hg]⟩
  · rcases hd : env.derive_addresses desc with e1 | addrs
    · exact Or.inr ⟨unwrap_msg, by simp [probe_spk, hg, hd]⟩
    · cases addrs with
      | nil => exact Or.inr ⟨oob_msg, by simp [probe_spk, hg, hd]⟩
      | cons a rest =>
        rcases ha : env.get_address_info a with e2 | wo
        · exact Or.inr ⟨unwrap_msg, by simp [probe_spk, hg, hd, ha]⟩
        · exact Or.inl ⟨wo.getD false, by simp [probe_spk, hg, hd, ha]⟩

theorem probe_opt_okOrPanic (env : RpcEnv) (o : Option Script) :
    okOrPanic (probe_opt env o).1 := by
  cases o with
  | none => exact Or.inl ⟨true, rfl⟩
  | some spk => exact probe_spk_okOrPanic env spk

theorem fidelity_probe_okOrPanic (env : RpcEnv) (st : Store) :
    okOrPanic (fidelity_probe env st).1 := by
  rcases h1 : probe_opt env
      ((st.fidelity_bond.map (fun fb => fb.bond.script_pub_key)).head?) with ⟨o1, evs1⟩
  rcases h2 : probe_opt env
      ((st.fidelity_bond.map (fun fb => fb.bond.script_pub_key)).tail.getLast?)
    with ⟨o2, evs2⟩
  have c1 := probe_opt_okOrPanic env
      ((st.fidelity_bond.map (fun fb => fb.bond.script_pub_key)).head?)
  have c2 := probe_opt_okOrPanic env
      ((st.fidelity_bond.map (fun fb => fb.bond.script_pub_key)).tail.getLast?)
  rw [h1] at c1
  rw [h2] at c2
  unfold fidelity_probe
  rw [h1, h2]
  rcases c1 with ⟨b1, hb1⟩ | ⟨m1, hm1⟩
  · simp only at hb1
    subst hb1
    rcases c2 with ⟨b2, hb2⟩ | ⟨m2, hm2⟩
    · simp only at hb2
      subst hb2
      exact Or.inl ⟨b1 && b2, rfl⟩
    · simp only at hm2
      subst hm2
      exact Or.inr ⟨m2, rfl⟩
  · simp only at hm1
    subst hm1
    exact Or.inr ⟨m1, rfl⟩

theorem resolve_filter_ok_resolves (env : RpcEnv) (ds : List String) (l : List String)
    (h : (resolve_filter env ds).1 = .ok l) :
    ∀ d ∈ ds, ∃ r, env.get_descriptor_info d = .ok r := by
  induction ds generalizing l with
  | nil => intro d hd; cases hd
  | cons d0 rest ih =>
    intro d hd
    rcases hg : env.get_descriptor_info d0 with e0 | desc
    · simp [resolve_filter, hg] at h
    · rcases hr : resolve_filter env rest with ⟨out, evs⟩
      cases out with
      | ok tail =>
        rcases List.mem_cons.mp hd with rfl | hmem
        · exact ⟨desc, hg⟩
        · exact ih tail (by rw [hr]) d hmem
      | err e => simp [resolve_filter, hg, hr] at h
      | panicked m => simp [resolve_filter, hg, hr] at h
      | spinning => simp [resolve_filter, hg, hr] at h

theorem resolve_all_ok_resolves (env : RpcEnv) (ds : List String) (l : List String)
    (h : (resolve_all env ds).1 = .ok l) :
    ∀ d ∈ ds, ∃ r, env.get_descriptor_info d = .ok r := by
  induction ds generalizing l with
  | nil => intro d hd; cases hd
  | cons d0 rest ih =>
    intro d hd
    rcases hg : env.get_descriptor_info d0 with e0 | desc
    · simp [resolve_all, hg] at h
    · rcases hr : resolve_all env rest with ⟨out, evs⟩
      cases out with
      | ok tail =>
        rcases List.mem_cons.mp hd with rfl | hmem
        · exact ⟨desc, hg⟩
        · exact ih tail (by rw [hr]) d hmem
      | err e => simp [resolve_all, hg, hr] at h
      | panicked m => simp [resolve_all, hg, hr] at h
      | spinning => simp [resolve_all, hg, hr] at h

theorem resolve_all_ok_length (env : RpcEnv) (ds : List String) (l : List String)
    (h : (resolve_all env ds).1 = .ok l) : l.length = ds.length := by
  induction ds generalizing l with
  | nil =>
    simp only [resolve_all] at h
    cases h
    rfl
  | cons d0 rest ih =>
    rcases hg : env.get_descriptor_info d0 with e0 | desc
    · simp [resolve_all, hg] at h
    · rcases hr : resolve_all env rest with ⟨out, evs⟩
      cases out with
      | ok tail =>
        simp only [resolve_all, hg, hr] at h
        cases h
        simp [ih tail (by rw [hr])]
      | err e => simp [resolve_all, hg, hr] at h
      | panicked m => simp [resolve_all, hg, hr] at h
      | spinning => simp [resolve_all, hg, hr] at h

theorem probe_spk_ok_resolves (env : RpcEnv) (spk : Script) (b : Bool)
    (h : (probe_spk env spk).1 = .ok b) :
    ∃ r, env.get_descriptor_info (raw_descriptor spk) = .ok r := by
  rcases hg : env.get_descriptor_info (raw_descriptor spk) with e0 | desc
  · simp [probe_spk, hg] at h
  · exact ⟨desc, rfl⟩

theorem fidelity_probe_ok_first (env : RpcEnv) (st : Store) (b : Bool) (spk : Script)
    (h : (fidelity_probe env st).1 = .ok b)
    (hh : (st.fidelity_bond.map (fun fb => fb.bond.script_pub_key)).head? = some spk) :
    ∃ r, env.get_descriptor_info (raw_descriptor spk) = .ok r := by
  rcases h1 : probe_opt env
      ((st.fidelity_bond.map (fun fb => fb.bond.script_pub_key)).head?) with ⟨o1, evs1⟩
  rcases h2 : probe_opt env
      ((st.fidelity_bond.map (fun fb => fb.bond.script_pub_key)).tail.getLast?)
    with ⟨o2, evs2⟩
  unfold fidelity_probe at h
  rw [h1, h2] at h
  cases o1 with
  | ok b1 =>
    rw [hh] at h1
    simp only [probe_opt] at h1
    exact probe_spk_ok_resolves env spk b1 (by rw [h1])
  | err e => simp at h
  | panicked m => simp at h
  | spinning => simp at h

theorem fidelity_probe_ok_last (env : RpcEnv) (st : Store) (b : Bool) (spk : Script)
    (h : (fidelity_probe env st).1 = .ok b)
    (hh : (st.fidelity_bond.map
        (fun fb => fb.bond.script_pub_key)).tail.getLast? = some spk) :
    ∃ r, env.get_descriptor_info (raw_descriptor spk) = .ok r := by
  rcases h1 : probe_opt env
      ((st.fidelity_bond.map (fun fb => fb.bond.script_pub_key)).head?) with ⟨o1, evs1⟩
  rcases h2 : probe_opt env
      ((st.fidelity_bond.map (fun fb => fb.bond.script_pub_key)).tail.getLast?)
    with ⟨o2, evs2⟩
  unfold fidelity_probe at h
  rw [h1, h2] at h
  cases o1 with
  | ok b1 =>
    cases o2 with
    | ok b2 =>
      rw [hh] at h2
      simp only [probe_opt] at h2
      exact probe_spk_ok_resolves env spk b2 (by rw [h2])
    | err e => simp at h
    | panicked m => simp at h
    | spinning => simp at h
  | err e => simp at h
  | panicked m => simp at h
  | spinning => simp at h

theorem resolve_filter_all_imported (env : RpcEnv) (ds : List String)
    (himp : ∀ d ∈ ds, ∃ r, env.get_descriptor_info d = .ok r ∧
      env.is_descriptor_imported r = true) :
    resolve_filter env ds = (.ok [], ds.map Event.get_descriptor_info) := by
  induction ds with
  | nil => rfl
  | cons d rest ih =>
    obtain ⟨r, hg, hi⟩ := himp d (List.mem_cons_self d rest)
    have hrest := ih (fun x hx => himp x (List.mem_cons_of_mem d hx))
    simp [resolve_filter, hg, hrest, hi]

theorem build_catalog_ok_inv (env : RpcEnv) (st : Store) (batch : List String)
    (probe : Bool) (h : (build_catalog env st).1 = .ok (batch, probe)) :
    ∃ wd im om ic oc fid,
      env.get_unimported_wallet_desc = .ok wd ∧
      (resolve_filter env (st.incoming_swapcoins.map multisig_descriptor)).1 = .ok im ∧
      (resolve_filter env (st.outgoing_swapcoins.map multisig_descriptor)).1 = .ok om ∧
      (resolve_filter env (st.incoming_swapcoins.map (contract_descriptor env))).1 = .ok ic ∧
      (resolve_filter env (st.outgoing_swapcoins.map (contract_descriptor env))).1 = .ok oc ∧
      (fidelity_probe env st).1 = .ok probe ∧
      (resolve_all env (st.fidelity_bond.map (fun fb => raw_descriptor fb.spk))).1 = .ok fid ∧
      batch = wd ++ im ++ om ++ ic ++ oc ++ fid := by
  rcases hw : env.get_unimported_wallet_desc with e0 | wd
  · simp [build_catalog, hw] at h
  · simp only [build_catalog, hw] at h
    obtain ⟨im, h1, h⟩ := withEvents_fst_ok h
    obtain ⟨om, h2, h⟩ := withEvents_fst_ok h
    obtain ⟨ic, h3, h⟩ := withEvents_fst_ok h
    obtain ⟨oc, h4, h⟩ := withEvents_fst_ok h
    obtain ⟨pb, h5, h⟩ := withEvents_fst_ok h
    obtain ⟨fid, h6, h⟩ := withEvents_fst_ok h
    simp only [SyncOutcome.ok.injEq, Prod.mk.injEq] at h
    obtain ⟨hbatch, hprobe⟩ := h
    subst hprobe
    exact ⟨wd, im, om, ic, oc, fid, rfl, h1, h2, h3, h4, h5, h6, hbatch.symm⟩

theorem build_catalog_okOrPanic (env : RpcEnv) (st : Store) (ws : List String)
    (hw : env.get_unimported_wallet_desc = .ok ws) :
    okOrPanic (build_catalog env st).1 := by
  simp only [build_catalog, hw]
  refine withEvents_okOrPanic (resolve_filter_okOrPanic env _) (fun a1 => ?_)
  refine withEvents_okOrPanic (resolve_filter_okOrPanic env _) (fun a2 => ?_)
  refine withEvents_okOrPanic (resolve_filter_okOrPanic env _) (fun a3 => ?_)
  refine withEvents_okOrPanic (resolve_filter_okOrPanic env _) (fun a4 => ?_)
  refine withEvents_okOrPanic (fidelity_probe_okOrPanic env st) (fun a5 => ?_)
  refine withEvents_okOrPanic (resolve_all_okOrPanic env _) (fun a6 => ?_)
  exact Or.inl ⟨_, rfl⟩

theorem build_catalog_ok_resolves (env : RpcEnv) (st : Store) (batch : List String)
    (probe : Bool) (h : (build_catalog env st).1 = .ok (batch, probe)) :
    ∀ d ∈ catalog_queries env st, ∃ r, env.get_descriptor_info d = .ok r := by
  obtain ⟨wd, im, om, ic, oc, fid, hw, h1, h2, h3, h4, h5, h6, hb⟩ :=
    build_catalog_ok_inv env st batch probe h
  intro d hd
  simp only [catalog_queries, List.mem_append] at hd
  rcases hd with ((((((hd | hd) | hd) | hd) | hd) | hd) | hd)
  · exact resolve_filter_ok_resolves env _ im h1 d hd
  · exact resolve_filter_ok_resolves env _ om h2 d hd
  · exact resolve_filter_ok_resolves env _ ic h3 d hd
  · exact resolve_filter_ok_resolves env _ oc h4 d hd
  · rw [List.mem_map] at hd
    obtain ⟨spk, hspk, rfl⟩ := hd
    rw [Option.mem_toList] at hspk
    exact fidelity_probe_ok_first env st probe spk h5 hspk
  · rw [List.mem_map] at hd
    obtain ⟨spk, hspk, rfl⟩ := hd
    rw [Option.mem_toList] at hspk
    exact fidelity_probe_ok_last env st probe spk h5 hspk
  · exact resolve_all_ok_resolves env _ fid h6 d hd

theorem sync_of_catalog_panicked (env : RpcEnv) (st : Store) (fuel : Nat)
    (evs0 : List Event) (m : String)
    (hE : ensure_wallet env st.file_name = (.ok (), evs0))
    (hP : (build_catalog env st).1 = .panicked m) :
    (sync env st fuel).outcome = .panicked m := by
  rcases hC : build_catalog env st with ⟨oC, evs1⟩
  rw [hC] at hP
  simp only at hP
  subst hP
  simp [sync, hE, hC]

theorem sync_early_return (env : RpcEnv) (st : Store) (fuel : Nat)
    (evs0 : List Event) (batch : List String) (probe : Bool) (evs1 : List Event)
    (hE : ensure_wallet env st.file_name = (.ok (), evs0))
    (hC : build_catalog env st = (.ok (batch, probe), evs1))
    (hcond : (batch.isEmpty && probe) = true) :
    sync env st fuel = { outcome := .ok (), store := st, events := evs0 ++ evs1 } := by
  simp [sync, hE, hC, hcond]

theorem sync_import_mem (env : RpcEnv) (st : Store) (fuel : Nat)
    (evs0 : List Event) (batch : List String) (probe : Bool) (evs1 : List Event)
    (hE : ensure_wallet env st.file_name = (.ok (), evs0))
    (hC : build_catalog env st = (.ok (batch, probe), evs1))
    (hcond : (batch.isEmpty && probe) = false) :
    Event.import_descriptors batch ∈ (sync env st fuel).events := by
  cases himp : env.import_descriptors batch with
  | error e => simp [sync, hE, hC, hcond, himp]
  | ok u =>
    rcases hL : rescan_loop env st fuel 0 with ⟨oL, st2, evs2⟩
    cases oL with
    | ok _ =>
      cases hF : env.find_hd_next_index with
      | error e => simp [sync, hE, hC, hcond, himp, hL, hF]
      | ok idx =>
        cases hU : env.update_external_index idx with
        | error e => simp [sync, hE, hC, hcond, himp, hL, hF, hU]
        | ok _ => simp [sync, hE, hC, hcond, himp, hL, hF, hU]
    | err e => simp [sync, hE, hC, hcond, himp, hL]
    | panicked m => simp [sync, hE, hC, hcond, himp, hL]
    | spinning => simp [sync, hE, hC, hcond, himp, hL]

theorem rescan_loop_store_cases (env : RpcEnv) (st : Store) :
    ∀ (f a : Nat),
      (rescan_loop env st f a).2.1 = st ∨
      ∃ tip i, env.get_block_count i = .ok tip ∧
        (rescan_loop env st f a).2.1 = { st with last_synced_height := some tip } := by
  intro f
  induction f with
  | zero => intro a; left; rfl
  | succ f ih =>
    intro a
    rcases hgb : env.get_block_count a with e0 | tip
    · left
      simp [rescan_loop, hgb]
    · rcases hres : env.rescan_blockchain a
          (max (st.last_synced_height.getD 0) (st.wallet_birthday.getD 0)) tip
        with e1 | u
      · rcases hL : rescan_loop env st f (a + 1) with ⟨out, st2, evs⟩
        have hrec := ih (a + 1)
        rw [hL] at hrec
        simp only [rescan_loop, hgb, hres, hL]
        simpa using hrec
      · right
        exact ⟨tip, a, hgb, by simp [rescan_loop, hgb, hres]⟩

theorem sync_store_eq (env : RpcEnv) (st : Store) (fuel : Nat) :
    (sync env st fuel).store = st ∨
    (sync env st fuel).store = (rescan_loop env st fuel 0).2.1 := by
  rcases hE : ensure_wallet env st.file_name with ⟨oE, evs0⟩
  cases oE with
  | ok u =>
    rcases hC : build_catalog env st with ⟨oC, evs1⟩
    cases oC with
    | ok p =>
      rcases p with ⟨batch, probe⟩
      by_cases hcond : (batch.isEmpty && probe) = true
      · left
        simp [sync, hE, hC, hcond]
      · have hcond2 : (batch.isEmpty && probe) = false :=
          Bool.eq_false_iff.mpr hcond
        cases himp : env.import_descriptors batch with
        | error e => left; simp [sync, hE, hC, hcond2, himp]
        | ok u2 =>
          right
          rcases hL : rescan_loop env st fuel 0 with ⟨oL, st2, evs2⟩
          cases oL with
          | ok _ =>
            cases hF : env.find_hd_next_index with
            | error e => simp [sync, hE, hC, hcond2, himp, hL, hF]
            | ok idx =>
              cases hU : env.update_external_index idx with
              | error e => simp [sync, hE, hC, hcond2, himp, hL, hF, hU]
              | ok _ => simp [sync, hE, hC, hcond2, himp, hL, hF, hU]
          | err e => simp [sync, hE, hC, hcond2, himp, hL]
          | panicked m => simp [sync, hE, hC, hcond2, himp, hL]
          | spinning => simp [sync, hE, hC, hcond2, himp, hL]
    | err e => left; simp [sync, hE, hC]
    | panicked m => left; simp [sync, hE, hC]
    | spinning => left; simp [sync, hE, hC]
  | err e => left; simp [sync, hE]
  | panicked m => left; simp [sync, hE]
  | spinning => left; simp [sync, hE]

theorem ensure_evt_not_import_rescan (e : Event) (h : e.is_ensure_evt = true) :
    (!e.is_import_evt && !e.is_rescan_evt) = true := by
  cases e <;> simp_all [Event.is_ensure_evt, Event.is_import_evt, Event.is_rescan_evt]

theorem catalog_evt_not_import_rescan (e : Event) (h : e.is_catalog_evt = true) :
    (!e.is_import_evt && !e.is_rescan_evt) = true := by
  cases e <;> simp_all [Event.is_catalog_evt, Event.is_import_evt, Event.is_rescan_evt]

theorem catalog_evt_not_mgmt (e : Event) (h : e.is_catalog_evt = true) :
    (e.is_load_evt || e.is_create_evt) = false := by
  cases e <;> simp_all [Event.is_catalog_evt, Event.is_load_evt, Event.is_create_evt]

theorem loop_evt_not_mgmt (e : Event) (h : e.is_loop_evt = true) :
    (e.is_load_evt || e.is_create_evt) = false := by
  cases e <;> simp_all [Event.is_loop_evt, Event.is_load_evt, Event.is_create_evt]

theorem filter_mgmt_catalog (l : List Event) (h : ∀ e ∈ l, e.is_catalog_evt = true) :
    l.filter (fun e => e.is_load_evt || e.is_create_evt) = [] := by
  rw [List.filter_eq_nil_iff]
  intro a ha
  rw [catalog_evt_not_mgmt a (h a ha)]
  exact Bool.false_ne_true

theorem filter_mgmt_loop (l : List Event) (h : ∀ e ∈ l, e.is_loop_evt = true) :
    l.filter (fun e => e.is_load_evt || e.is_create_evt) = [] := by
  rw [List.filter_eq_nil_iff]
  intro a ha
  rw [loop_evt_not_mgmt a (h a ha)]
  exact Bool.false_ne_true

theorem filter_mgmt_import (ds : List String) :
    ([Event.import_descriptors ds].filter (fun e => e.is_load_evt || e.is_create_evt)) = [] :=
  rfl

theorem filter_mgmt_find :
    ([Event.find_hd_next_index].filter (fun e => e.is_load_evt || e.is_create_evt)) = [] :=
  rfl

theorem filter_mgmt_tail (i : Nat) :
    ([Event.find_hd_next_index, Event.update_external_index i].filter
      (fun e => e.is_load_evt || e.is_create_evt)) = [] :=
  rfl

theorem filter_append_drop (p : Event → Bool) (evs0 suffix : List Event)
    (hs : ∀ a ∈ suffix, p a = false) :
    (evs0 ++ suffix).filter p = evs0.filter p := by
  have hnil : List.filter p suffix = [] :=
    List.filter_eq_nil_iff.mpr (fun a ha => by rw [hs a ha]; exact Bool.false_ne_true)
  rw [List.filter_append, hnil, List.append_nil]

theorem sync_mgmt_filter (env : RpcEnv) (st : Store) (fuel : Nat) :
    ((sync env st fuel).events.filter (fun e => e.is_load_evt || e.is_create_evt)) =
      ((ensure_wallet env st.file_name).2.filter
        (fun e => e.is_load_evt || e.is_create_evt)) := by
  rcases hE : ensure_wallet env st.file_name with ⟨oE, evs0⟩
  cases oE with
  | ok u =>
    rcases hC : build_catalog env st with ⟨oC, evs1⟩
    have hcatm : ∀ a ∈ evs1, ((a.is_load_evt || a.is_create_evt)) = false :=
      fun a ha => catalog_evt_not_mgmt a
        (mem_build_catalog_events env st a (by rw [hC]; exact ha))
    cases oC with
    | ok p =>
      rcases p with ⟨batch, probe⟩
      have hPimp : ∀ a ∈ ([Event.import_descriptors batch] : List Event),
          ((a.is_load_evt || a.is_create_evt)) = false := by
        intro a ha
        simp only [List.mem_cons, List.not_mem_nil, or_false] at ha
        subst ha
        rfl
      cases hcond : (batch.isEmpty && probe) with
      | true =>
        simp only [sync, hE, hC, hcond, if_true]
        exact filter_append_drop _ evs0 evs1 hcatm
      | false =>
        rcases hL : rescan_loop env st fuel 0 with ⟨oL, st2, evs2⟩
        have hloopm : ∀ a ∈ evs2, ((a.is_load_evt || a.is_create_evt)) = false :=
          fun a ha => loop_evt_not_mgmt a
            (mem_rescan_loop_events env st fuel 0 a (by rw [hL]; exact ha))
        cases himp : env.import_descriptors batch with
        | error e0 =>
          simp only [sync, hE, hC, hcond, Bool.false_eq_true, if_false, himp,
            List.append_assoc]
          exact filter_append_drop _ evs0 _
            (List.forall_mem_append.mpr ⟨hcatm, hPimp⟩)
        | ok u2 =>
          have hfind : ∀ a ∈ ([Event.find_hd_next_index] : List Event),
              ((a.is_load_evt || a.is_create_evt)) = false := by
            intro a ha
            simp only [List.mem_cons, List.not_mem_nil, or_false] at ha
            subst ha
            rfl
          cases oL with
          | ok _ =>
            cases hF : env.find_hd_next_index with
            | error e0 =>
              simp only [sync, hE, hC, hcond, Bool.false_eq_true, if_false, himp, hL,
                hF, List.append_assoc]
              exact filter_append_drop _ evs0 _
                (List.forall_mem_append.mpr ⟨hcatm, List.forall_mem_append.mpr
                  ⟨hPimp, List.forall_mem_append.mpr ⟨hloopm, hfind⟩⟩⟩)
            | ok idx =>
              have htail : ∀ a ∈ ([Event.find_hd_next_index,
                  Event.update_external_index idx] : List Event),
                  ((a.is_load_evt || a.is_create_evt)) = false := by
                intro a ha
                simp only [List.mem_cons, List.not_mem_nil, or_false] at ha
                rcases ha with rfl | rfl <;> rfl
              cases hU : env.update_external_index idx with
              | error e0 =>
                simp only [sync, hE, hC, hcond, Bool.false_eq_true, if_false, himp, hL,
                  hF, hU, List.append_assoc]
                exact filter_append_drop _ evs0 _
                  (List.forall_mem_append.mpr ⟨hcatm, List.forall_mem_append.mpr
                    ⟨hPimp, List.forall_mem_append.mpr ⟨hloopm, htail⟩⟩⟩)
              | ok _ =>
                simp only [sync, hE, hC, hcond, Bool.false_eq_true, if_false, himp, hL,
                  hF, hU, List.append_assoc]
                exact filter_append_drop _ evs0 _
                  (List.forall_mem_append.mpr ⟨hcatm, List.forall_mem_append.mpr
                    ⟨hPimp, List.forall_mem_append.mpr ⟨hloopm, htail⟩⟩⟩)
          | err e0 =>
            simp only [sync, hE, hC, hcond, Bool.false_eq_true, if_false, himp, hL,
              List.append_assoc]
            exact filter_append_drop _ evs0 _
              (List.forall_mem_append.mpr ⟨hcatm, List.forall_mem_append.mpr
                ⟨hPimp, hloopm⟩⟩)
          | panicked m =>
            simp only [sync, hE, hC, hcond, Bool.false_eq_true, if_false, himp, hL,
              List.append_assoc]
            exact filter_append_drop _ evs0 _
              (List.forall_mem_append.mpr ⟨hcatm, List.forall_mem_append.mpr
                ⟨hPimp, hloopm⟩⟩)
          | spinning =>
            simp only [sync, hE, hC, hcond, Bool.false_eq_true, if_false, himp, hL,
              List.append_assoc]
            exact filter_append_drop _ evs0 _
              (List.forall_mem_append.mpr ⟨hcatm, List.forall_mem_append.mpr
                ⟨hPimp, hloopm⟩⟩)
    | err e0 =>
      simp only [sync, hE, hC]
      exact filter_append_drop _ evs0 evs1 hcatm
    | panicked m =>
      simp only [sync, hE, hC]
      exact filter_append_drop _ evs0 evs1 hcatm
    | spinning =>
      simp only [sync, hE, hC]
      exact filter_append_drop _ evs0 evs1 hcatm
  | err e0 => simp only [sync, hE]
  | panicked m => simp only [sync, hE]
  | spinning => simp only [sync, hE]

/-- C6: with no swap-coins, no fidelity bonds and no unimported wallet
descriptors, `sync` returns successfully, leaves the store (and in
particular `last_synced_height`) unchanged, and performs no
descriptor-import call and no rescan call. -/
theorem empty_state_short_circuit (env : RpcEnv) (st : Store) (fuel : Nat)
    (h0 : (ensure_wallet env st.file_name).1 = .ok ())
    (hin : st.incoming_swapcoins = [])
    (hout : st.outgoing_swapcoins = [])
    (hfb : st.fidelity_bond = [])
    (hw : env.get_unimported_wallet_desc = .ok []) :
    (sync env st fuel).outcome = .ok () ∧
    (sync env st fuel).store = st ∧
    ((sync env st fuel).events.all
      (fun e => !e.is_import_evt && !e.is_rescan_evt)) = true := by
  rcases hE : ensure_wallet env st.file_name with ⟨oE, evs0⟩
  rw [hE] at h0
  simp only at h0
  subst h0
  have hC : build_catalog env st = (.ok ([], true), [.get_unimported_wallet_desc]) := by
    simp [build_catalog, hw, hin, hout, hfb, resolve_filter, resolve_all,
      fidelity_probe, probe_opt, withEvents]
  have hsync := sync_early_return env st fuel evs0 [] true
    [.get_unimported_wallet_desc] hE hC rfl
  rw [hsync]
  refine ⟨rfl, rfl, ?_⟩
  simp only [List.all_eq_true]
  intro e he
  rcases List.mem_append.mp he with h | h
  · exact ensure_evt_not_import_rescan e
      (mem_ensure_wallet_events env st.file_name e (by rw [hE]; exact h))
  · simp only [List.mem_cons, List.not_mem_nil, or_false] at h
    subst h
    rfl

/-- Witness for C6: the empty store in the all-ok environment. -/
theorem empty_state_short_circuit_witness :
    envOk.get_unimported_wallet_desc = .ok [] ∧
    (sync envOk stEmpty 1).outcome = .ok () ∧
    (sync envOk stEmpty 1).store = stEmpty ∧
    ((sync envOk stEmpty 1).events.all
      (fun e => !e.is_import_evt && !e.is_rescan_evt)) = true := by
  have h := empty_state_short_circuit envOk stEmpty 1 rfl rfl rfl rfl rfl
  exact ⟨rfl, h.1, h.2.1, h.2.2⟩

/-- C3 (amended): a repeat `sync` performs no import and no rescan only
when the wallet has no fidelity bonds: if every swap-coin descriptor
resolves to an already-imported descriptor, there are no unimported
wallet descriptors, and the fidelity-bond collection is empty, the call
returns successfully with zero import and zero rescan calls and the
store unchanged. -/
theorem second_sync_no_reimport_without_bonds (env : RpcEnv) (st : Store) (fuel : Nat)
    (h0 : (ensure_wallet env st.file_name).1 = .ok ())
    (hfb : st.fidelity_bond = [])
    (hw : env.get_unimported_wallet_desc = .ok [])
    (hres : ∀ d ∈ st.incoming_swapcoins.map multisig_descriptor
        ++ st.outgoing_swapcoins.map multisig_descriptor
        ++ st.incoming_swapcoins.map (contract_descriptor env)
        ++ st.outgoing_swapcoins.map (contract_descriptor env),
      ∃ r, env.get_descriptor_info d = .ok r ∧
        env.is_descriptor_imported r = true) :
    (sync env st fuel).outcome = .ok () ∧
    (sync env st fuel).store = st ∧
    ((sync env st fuel).events.all
      (fun e => !e.is_import_evt && !e.is_rescan_evt)) = true := by
  rcases hE : ensure_wallet env st.file_name with ⟨oE, evs0⟩
  rw [hE] at h0
  simp only at h0
  subst h0
  have hA := resolve_filter_all_imported env
    (st.incoming_swapcoins.map multisig_descriptor)
    (fun d hd => hres d (by
      simp only [List.mem_append]
      exact Or.inl (Or.inl (Or.inl hd))))
  have hB := resolve_filter_all_imported env
    (st.outgoing_swapcoins.map multisig_descriptor)
    (fun d hd => hres d (by
      simp only [List.mem_append]
      exact Or.inl (Or.inl (Or.inr hd))))
  have hCc := resolve_filter_all_imported env
    (st.incoming_swapcoins.map (contract_descriptor env))
    (fun d hd => hres d (by
      simp only [List.mem_append]
      exact Or.inl (Or.inr hd)))
  have hD := resolve_filter_all_imported env
    (st.outgoing_swapcoins.map (contract_descriptor env))
    (fun d hd => hres d (by
      simp only [List.mem_append]
      exact Or.inr hd))
  have hfst : (build_catalog env st).1 = .ok ([], true) := by
    simp [build_catalog, hw, hA, hB, hCc, hD, hfb, resolve_all,
      fidelity_probe, probe_opt, withEvents]
  have hC2 : build_catalog env st = (.ok ([], true), (build_catalog env st).2) :=
    Prod.ext hfst rfl
  have hsync := sync_early_return env st fuel evs0 [] true
    ((build_catalog env st).2) hE hC2 rfl
  rw [hsync]
  refine ⟨rfl, rfl, ?_⟩
  simp only [List.all_eq_true]
  intro e he
  rcases List.mem_append.mp he with h | h
  · exact ensure_evt_not_import_rescan e
      (mem_ensure_wallet_events env st.file_name e (by rw [hE]; exact h))
  · exact catalog_evt_not_import_rescan e (mem_build_catalog_events env st e h)

/-- Witness for C3: a second run over a store with one already-imported
incoming swap-coin and no bonds does nothing. -/
theorem second_sync_no_reimport_witness :
    envSecond.get_unimported_wallet_desc = .ok [] ∧
    ((sync envSecond stSwap 1).events.all
      (fun e => !e.is_import_evt && !e.is_rescan_evt)) = true := by
  have h := second_sync_no_reimport_without_bonds envSecond stSwap 1 rfl rfl rfl
    (by
      intro d hd
      exact ⟨d ++ "#c", rfl, rfl⟩)
  exact ⟨rfl, h.2.2⟩

/-- Counterexample for C3: with one fidelity bond tracked, a second
`sync` in the post-first-run service state (everything imported, probed
addresses watch-only, no new wallet descriptors, unchanged tip) still
submits an import batch containing the bond descriptor and still runs a
rescan. -/
theorem sync_not_idempotent_with_bonds :
    (sync envOk stBond 2).outcome = .ok () ∧
    envSecond.get_unimported_wallet_desc = .ok [] ∧
    envSecond.is_descriptor_imported "raw(aa)#c" = true ∧
    envSecond.get_block_count 0 = envOk.get_block_count 0 ∧
    Event.import_descriptors ["raw(aa)#c"] ∈
      (sync envSecond (sync envOk stBond 2).store 2).events ∧
    Event.rescan_blockchain 5 5 ∈
      (sync envSecond (sync envOk stBond 2).store 2).events := by
  refine ⟨rfl, rfl, rfl, rfl, ?_, ?_⟩ <;> decide

/-- C2 (amended): the fidelity-bond probe never causes the fidelity-bond
category to be skipped.  Whenever the catalog phase completes, the batch
ends with the full resolved fidelity-bond descriptor list (one per bond)
regardless of the probe result; an empty batch forces an empty bond
collection; when the empty-batch-and-probe early return does not fire
the whole batch (bond descriptors included) is submitted for import; and
the early return fires only with the batch (bond descriptors included)
empty. -/
theorem fidelity_descriptors_always_included (env : RpcEnv) (st : Store)
    (fuel : Nat) (batch : List String) (probe : Bool)
    (hE0 : (ensure_wallet env st.file_name).1 = .ok ())
    (h : (build_catalog env st).1 = .ok (batch, probe)) :
    (∃ rest fid, batch = rest ++ fid ∧ fid.length = st.fidelity_bond.length ∧
      (resolve_all env (st.fidelity_bond.map (fun fb => raw_descriptor fb.spk))).1 =
        .ok fid) ∧
    (batch = [] → st.fidelity_bond = []) ∧
    ((batch.isEmpty && probe) = false →
      Event.import_descriptors batch ∈ (sync env st fuel).events) ∧
    ((batch.isEmpty && probe) = true →
      (sync env st fuel).outcome = .ok () ∧
      (sync env st fuel).events =
        (ensure_wallet env st.file_name).2 ++ (build_catalog env st).2) := by
  obtain ⟨wd, im, om, ic, oc, fid, hw, h1, h2, h3, h4, h5, h6, hb⟩ :=
    build_catalog_ok_inv env st batch probe h
  have hlen : fid.length = st.fidelity_bond.length := by
    have hl := resolve_all_ok_length env _ fid h6
    simpa using hl
  rcases hE : ensure_wallet env st.file_name with ⟨oE, evs0⟩
  rw [hE] at hE0
  simp only at hE0
  subst hE0
  rcases hCp : build_catalog env st with ⟨oC, evs1⟩
  rw [hCp] at h
  simp only at h
  subst h
  refine ⟨⟨wd ++ im ++ om ++ ic ++ oc, fid, by simpa [List.append_assoc] using hb,
    hlen, h6⟩, ?_, ?_, ?_⟩
  · intro hbe
    rw [hbe] at hb
    have hfid : fid = [] := (List.append_eq_nil.mp hb.symm).2
    rw [hfid] at hlen
    have : st.fidelity_bond.length = 0 := hlen.symm
    exact List.length_eq_zero.mp this
  · intro hcond
    exact sync_import_mem env st fuel evs0 batch probe evs1 hE hCp hcond
  · intro hcond
    have hsync := sync_early_return env st fuel evs0 batch probe evs1 hE hCp hcond
    rw [hsync]
    exact ⟨rfl, rfl⟩

/-- Witness for C2 (amended): a store with one fidelity bond whose probe
reports watch-only still produces a batch containing the bond descriptor
and submits it. -/
theorem fidelity_descriptors_always_included_witness :
    (build_catalog envProbeTrue stBond).1 = .ok (["raw(aa)#c"], true) ∧
    Event.import_descriptors ["raw(aa)#c"] ∈ (sync envProbeTrue stBond 2).events := by
  have h := fidelity_descriptors_always_included envProbeTrue stBond 2
    ["raw(aa)#c"] true rfl rfl
  exact ⟨rfl, h.2.2.1 rfl⟩

/-- Counterexample for C2: the probe succeeds (both probed fidelity
addresses are watch-only), yet the submitted import batch still contains
the fidelity-bond descriptor — the category is not skipped. -/
theorem fidelity_probe_skip_counterexample :
    (fidelity_probe envProbeTrue stBond).1 = .ok true ∧
    (resolve_all envProbeTrue
      (stBond.fidelity_bond.map (fun fb => raw_descriptor fb.spk))).1 =
      .ok ["raw(aa)#c"] ∧
    Event.import_descriptors ["raw(aa)#c"] ∈ (sync envProbeTrue stBond 2).events := by
  refine ⟨rfl, rfl, ?_⟩
  decide

/-- C5 (amended): `last_synced_height` is mutated at most once per
`sync` call — either the store is returned unchanged, or it is updated
exactly once to a freshly queried chain tip — and it is non-decreasing
provided every tip the service reports during the call is at least the
currently recorded height. -/
theorem last_synced_height_monotone (env : RpcEnv) (st : Store) (fuel : Nat)
    (hmono : ∀ i tip, env.get_block_count i = .ok tip →
      st.last_synced_height.getD 0 ≤ tip) :
    st.last_synced_height.getD 0 ≤
      (sync env st fuel).store.last_synced_height.getD 0 ∧
    ((sync env st fuel).store = st ∨
      ∃ tip i, env.get_block_count i = .ok tip ∧
        (sync env st fuel).store = { st with last_synced_height := some tip }) := by
  have hcases : (sync env st fuel).store = st ∨
      ∃ tip i, env.get_block_count i = .ok tip ∧
        (sync env st fuel).store = { st with last_synced_height := some tip } := by
    rcases sync_store_eq env st fuel with h | h
    · exact Or.inl h
    · rcases rescan_loop_store_cases env st fuel 0 with h2 | ⟨tip, i, hgb, h2⟩
      · exact Or.inl (h.trans h2)
      · exact Or.inr ⟨tip, i, hgb, h.trans h2⟩
  refine ⟨?_, hcases⟩
  rcases hcases with h | ⟨tip, i, hgb, h⟩
  · rw [h]
  · rw [h]
    simpa using hmono i tip hgb

/-- Witness for C5 (amended): from an unsynced store every reported tip
is at least the recorded height 0, so the recorded height cannot
decrease. -/
theorem last_synced_height_monotone_witness :
    stEmpty.last_synced_height.getD 0 ≤
      (sync envOk stEmpty 1).store.last_synced_height.getD 0 :=
  (last_synced_height_monotone envOk stEmpty 1 (fun _ tip _ => Nat.zero_le tip)).1

/-- Counterexample for C5: after a first `sync` records height 5, a
second `sync` against a node now reporting tip 3 succeeds and records 3,
so `last_synced_height` decreases across the sequence. -/
theorem monotonicity_counterexample :
    (sync envOk stBond 2).store.last_synced_height = some 5 ∧
    (sync envTip3 (sync envOk stBond 2).store 2).outcome = .ok () ∧
    (sync envTip3 (sync envOk stBond 2).store 2).store.last_synced_height = some 3 :=
  ⟨rfl, rfl, rfl⟩

/-- C9: `sync` resolves the target wallet in strict priority order,
witnessed by the load/create calls appearing in its whole event trace:
if the wallet is already loaded there is no load and no create call; if
it is only in the wallet directory there is exactly one load call and no
create call; otherwise exactly one create call — the legacy one below
version 210000, and above it the untyped positional `createwallet` call
with exactly the six arguments (name, true, false, null, false, true). -/
theorem wallet_resolution_priority (env : RpcEnv) (st : Store) (fuel : Nat) :
    (∀ L, env.list_wallets = .ok L → L.contains st.file_name = true →
      ((sync env st fuel).events.filter
        (fun e => e.is_load_evt || e.is_create_evt)) = []) ∧
    (∀ L D, env.list_wallets = .ok L → L.contains st.file_name = false →
      env.listwalletdir = .ok D → D.contains st.file_name = true →
      ((sync env st fuel).events.filter
        (fun e => e.is_load_evt || e.is_create_evt)) =
        [.load_wallet st.file_name]) ∧
    (∀ L D v, env.list_wallets = .ok L → L.contains st.file_name = false →
      env.listwalletdir = .ok D → D.contains st.file_name = false →
      env.version = .ok v → v < 210000 →
      ((sync env st fuel).events.filter
        (fun e => e.is_load_evt || e.is_create_evt)) =
        [.create_wallet_legacy st.file_name]) ∧
    (∀ L D v, env.list_wallets = .ok L → L.contains st.file_name = false →
      env.listwalletdir = .ok D → D.contains st.file_name = false →
      env.version = .ok v → ¬(v < 210000) →
      ((sync env st fuel).events.filter
        (fun e => e.is_load_evt || e.is_create_evt)) =
        [.rpc_call "createwallet"
          [JVal.str st.file_name, JVal.bool true, JVal.bool false,
            JVal.null, JVal.bool false, JVal.bool true]]) := by
  refine ⟨?_, ?_, ?_, ?_⟩
  · intro L hLW hc
    have hm : st.file_name ∈ L := by simpa using hc
    rw [sync_mgmt_filter]
    simp [ensure_wallet, hLW, hm, Event.is_load_evt, Event.is_create_evt]
  · intro L D hLW hc1 hWD hc2
    have hm1 : st.file_name ∉ L := by simpa using hc1
    have hm2 : st.file_name ∈ D := by simpa using hc2
    rw [sync_mgmt_filter]
    cases hl : env.load_wallet st.file_name <;>
      simp [ensure_wallet, hLW, hm1, hWD, hm2, hl,
        Event.is_load_evt, Event.is_create_evt]
  · intro L D v hLW hc1 hWD hc2 hV hv
    have hm1 : st.file_name ∉ L := by simpa using hc1
    have hm2 : st.file_name ∉ D := by simpa using hc2
    rw [sync_mgmt_filter]
    cases hcr : env.create_wallet_legacy st.file_name <;>
      simp [ensure_wallet, hLW, hm1, hWD, hm2, hV, hv, hcr,
        Event.is_load_evt, Event.is_create_evt]
  · intro L D v hLW hc1 hWD hc2 hV hv
    have hm1 : st.file_name ∉ L := by simpa using hc1
    have hm2 : st.file_name ∉ D := by simpa using hc2
    rw [sync_mgmt_filter]
    cases hcr : env.create_wallet_call
        [JVal.str st.file_name, JVal.bool true, JVal.bool false,
          JVal.null, JVal.bool false, JVal.bool true] <;>
      simp [ensure_wallet, hLW, hm1, hWD, hm2, hV, hv, hcr,
        Event.is_load_evt, Event.is_create_evt]

/-- Witness for C9: with the wallet already loaded, the whole `sync`
trace contains no load and no create call. -/
theorem wallet_resolution_priority_witness :
    envOk.list_wallets = .ok ["w"] ∧
    (["w"].contains stEmpty.file_name) = true ∧
    ((sync envOk stEmpty 1).events.filter
      (fun e => e.is_load_evt || e.is_create_evt)) = [] :=
  ⟨rfl, rfl, (wallet_resolution_priority envOk stEmpty 1).1 ["w"] rfl rfl⟩

/-- C10 (amended): every failure of the descriptor-resolution call
during catalog building — swap-coin multisig, contract raw, probed
fidelity raw, or fidelity-bond raw descriptors — makes `sync` panic
(the `unwrap` aborts the process); it is not silently discarded, but it
is not surfaced as a propagated error result either. -/
theorem descriptor_failure_panics (env : RpcEnv) (st : Store) (fuel : Nat)
    (h0 : (ensure_wallet env st.file_name).1 = .ok ())
    (hw : ∃ ws, env.get_unimported_wallet_desc = .ok ws)
    (hfail : ∃ d ∈ catalog_queries env st, ∃ e,
      env.get_descriptor_info d = .error e) :
    ∃ m, (sync env st fuel).outcome = .panicked m := by
  obtain ⟨ws, hw⟩ := hw
  rcases hE : ensure_wallet env st.file_name with ⟨oE, evs0⟩
  rw [hE] at h0
  simp only at h0
  subst h0
  have hcls := build_catalog_okOrPanic env st ws hw
  unfold okOrPanic at hcls
  rcases hcls with ⟨⟨batch, probe⟩, hok⟩ | ⟨m, hpan⟩
  · exfalso
    obtain ⟨d, hd, e, hge⟩ := hfail
    obtain ⟨r, hr⟩ := build_catalog_ok_resolves env st batch probe hok d hd
    rw [hge] at hr
    simp at hr
  · exact ⟨m, sync_of_catalog_panicked env st fuel evs0 m hE hpan⟩

/-- Witness for C10 (amended): with resolution failing on the incoming
swap-coin's multisig descriptor, `sync` panics. -/
theorem descriptor_failure_panics_witness :
    envDescFail.get_descriptor_info (multisig_descriptor scIn) =
      .error (.other "bad descriptor") ∧
    ∃ m, (sync envDescFail stSwap 2).outcome = .panicked m :=
  ⟨rfl, descriptor_failure_panics envDescFail stSwap 2 rfl ⟨[], rfl⟩
    ⟨multisig_descriptor scIn, by decide, ⟨.other "bad descriptor", rfl⟩⟩⟩

/-- Counterexample for C10: a failing descriptor resolution makes `sync`
panic with the `unwrap` message instead of returning a propagated error
result. -/
theorem descriptor_failure_counterexample :
    envDescFail.get_descriptor_info (multisig_descriptor scIn) =
      .error (.other "bad descriptor") ∧
    (sync envDescFail stSwap 2).outcome = .panicked unwrap_msg :=
  ⟨rfl, rfl⟩

end CoinswapRpc
